import Mathlib

/-!
# Shallow embedding of `jupiter-swap-api-client`

This file embeds the codec and conversion layer of the repository
(`src/jupiter-swap-api-client/src/{lib.rs, swap.rs,
serde_helpers/field_as_string.rs, serde_helpers/option_field_as_string.rs}`)
and proves the specification's claims about it.

Modelling conventions:
* HTTP bytes, statuses and bodies are `Nat`/`String`; a body whose read
  fails is `Option.none` (mirroring `response.text().await` failing).
* JSON values are the inductive `Json` below; serde-derived struct
  deserializers become explicit field-lookup functions over `Json.obj`.
* The external `solana_sdk::pubkey::Pubkey` is an abstract byte wrapper;
  its `FromStr` parser (external to this repository) is a parameter of
  every deserializer that needs it.
* Rust `Result` is `Except`; machine integers are `Nat` (no arithmetic in
  this library ever overflows its containers; base64 bytes carry an
  explicit `< 256` bound where it matters).
-/

namespace JupiterSwap

/-- A JSON value, the wire model shared by all deserializers.
Objects keep their fields as an ordered association list, as received. -/
inductive Json where
  | str : String → Json
  | jbool : Bool → Json
  | num : Int → Json
  | null : Json
  | arr : List Json → Json
  | obj : List (String × Json) → Json
deriving Repr, Inhabited

/-- External `solana_sdk::pubkey::Pubkey`: a fixed-width binary identifier,
kept abstract as its byte content. -/
structure Pubkey where
  bytes : List Nat
deriving Repr, DecidableEq, Inhabited

/-! ## Transport layer (`lib.rs`) -/

/-- An HTTP response as the client sees it: a status code and the result of
reading the body text (`none` when reading the body itself fails). -/
structure HttpResponse where
  status : Nat
  body : Option String
deriving Repr, DecidableEq

/-- Rust `reqwest::StatusCode::is_success`: status in `200..=299`. -/
def statusIsSuccess (s : Nat) : Bool :=
  200 ≤ s && s ≤ 299

/-- Rust `ClientError` from `lib.rs`: the client's error taxonomy. -/
inductive ClientError where
  | requestFailed (status : Nat) (body : String)
  | deserializationError (msg : String)
  | jsonError (msg : String)
  | simdJsonError (msg : String)
deriving Repr, DecidableEq

/-- Rust `check_is_success` from `lib.rs`: a non-success status becomes
`RequestFailed { status, body }`, where the body text is captured
best-effort (`unwrap_or_default()` turns a failed body read into `""`). -/
def check_is_success (r : HttpResponse) : Except ClientError HttpResponse :=
  if !statusIsSuccess r.status then
    .error (.requestFailed r.status (r.body.getD ""))
  else
    .ok r

/-- Rust `check_status_code_and_deserialize` from `lib.rs`: status check, then
body read (`bytes()`, failure → `DeserializationError`), then the
`simd_json` parse (failure → `SimdJsonError`). The parse step itself is
external, so it is a parameter. -/
def check_status_code_and_deserialize {T : Type} (parse : String → Option T)
    (r : HttpResponse) : Except ClientError T :=
  match check_is_success r with
  | .error e => .error e
  | .ok resp =>
    match resp.body with
    | none => .error (.deserializationError "error reading response bytes")
    | some b =>
      match parse b with
      | some t => .ok t
      | none => .error (.simdJsonError "simd-json parse failed")

/-- Rust `HealthResponse` from `lib.rs`: an opaque flattened JSON document. -/
structure HealthResponse where
  data : Json
deriving Repr, Inhabited

/-- Rust `JupiterSwapApiClient::health` from `lib.rs`: sends the request and
calls `response.json::<HealthResponse>()` directly, mapping any
`reqwest::Error` (body read or JSON decode) to `DeserializationError`.
Note: unlike the other operations it never calls `check_is_success`. -/
def health (parse : String → Option HealthResponse) (r : HttpResponse) :
    Except ClientError HealthResponse :=
  match r.body with
  | none => .error (.deserializationError "error reading response bytes")
  | some b =>
    match parse b with
    | some v => .ok v
    | none => .error (.deserializationError "json decode failed")

/-! ## Base64 codec (`swap.rs`, module `base64_serialize_deserialize`)

The Rust code uses `base64::engine::general_purpose::STANDARD`: the
standard alphabet with mandatory canonical padding and trailing bits
required to be zero. We embed that engine over byte lists. -/

/-- The standard base64 alphabet. -/
def b64Alphabet : List Char :=
  "ABCDEFGHIJKLMNOPQRSTUVWXYZabcdefghijklmnopqrstuvwxyz0123456789+/".toList

/-- Character for a 6-bit group. -/
def sextetToChar (s : Nat) : Char :=
  b64Alphabet.getD s 'A'

/-- Six-bit group for a character; `none` for characters outside the
standard alphabet. -/
def charToSextet (c : Char) : Option Nat :=
  b64Alphabet.findIdx? (· == c)

/-- Standard base64 encoding with padding of a byte list (each byte
`< 256`), three bytes per four output characters. -/
def encodeB64 : List Nat → List Char
  | [] => []
  | [b1] =>
    [sextetToChar (b1 / 4), sextetToChar (b1 % 4 * 16), '=', '=']
  | [b1, b2] =>
    [sextetToChar (b1 / 4), sextetToChar (b1 % 4 * 16 + b2 / 16),
     sextetToChar (b2 % 16 * 4), '=']
  | b1 :: b2 :: b3 :: rest =>
    sextetToChar (b1 / 4) :: sextetToChar (b1 % 4 * 16 + b2 / 16) ::
    sextetToChar (b2 % 16 * 4 + b3 / 64) :: sextetToChar (b3 % 64) ::
    encodeB64 rest

/-- Strict standard base64 decoding: four characters per block, canonical
padding required, characters outside the alphabet rejected, trailing bits
required to be zero (the `STANDARD` engine's configuration). `none` is a
decode error. -/
def decodeB64 : List Char → Option (List Nat)
  | [] => some []
  | c1 :: c2 :: c3 :: c4 :: rest =>
    match charToSextet c1, charToSextet c2 with
    | some s1, some s2 =>
      if c3 = '=' then
        if c4 = '=' ∧ rest = [] ∧ s2 % 16 = 0 then
          some [s1 * 4 + s2 / 16]
        else none
      else
        match charToSextet c3 with
        | some s3 =>
          if c4 = '=' then
            if rest = [] ∧ s3 % 4 = 0 then
              some [s1 * 4 + s2 / 16, s2 % 16 * 16 + s3 / 4]
            else none
          else
            match charToSextet c4 with
            | some s4 =>
              (decodeB64 rest).map
                (fun bs => (s1 * 4 + s2 / 16) :: (s2 % 16 * 16 + s3 / 4) ::
                  (s3 % 4 * 64 + s4) :: bs)
            | none => none
        | none => none
    | _, _ => none
  | _ => none

/-- Rust `base64_serialize_deserialize::serialize` from `swap.rs`: encode the
byte vector and emit the base64 text as a JSON string. -/
def base64_serialize_deserialize.serialize (v : List Nat) : String :=
  String.mk (encodeB64 v)

/-- Rust `base64_serialize_deserialize::deserialize` from `swap.rs`: expect a
JSON string, then decode it; a decode failure is a custom serde error. -/
def base64_serialize_deserialize.deserialize (j : Json) : Except String (List Nat) :=
  match j with
  | .str s =>
    match decodeB64 s.data with
    | some bytes => .ok bytes
    | none => .error "base64 decoding error"
  | _ => .error "invalid type: expected string"

/-! ## Domain and wire-shaped types (`swap.rs`) -/

/-- External `solana_sdk::instruction::AccountMeta`. -/
structure AccountMeta where
  pubkey : Pubkey
  is_signer : Bool
  is_writable : Bool
deriving Repr, DecidableEq

/-- External `solana_sdk::instruction::Instruction`. -/
structure Instruction where
  program_id : Pubkey
  accounts : List AccountMeta
  data : List Nat
deriving Repr, DecidableEq

/-- Rust `AccountMetaInternal` from `swap.rs`: the wire-shaped mirror of
`AccountMeta`. -/
structure AccountMetaInternal where
  pubkey : Pubkey
  is_signer : Bool
  is_writable : Bool
deriving Repr, DecidableEq

/-- Rust `InstructionInternal` from `swap.rs`: the wire-shaped mirror of
`Instruction`. -/
structure InstructionInternal where
  program_id : Pubkey
  accounts : List AccountMetaInternal
  data : List Nat
deriving Repr, DecidableEq

/-- Rust `PubkeyInternal` from `swap.rs`: a newtype whose single field `pk`
stands for the Rust tuple field `.0`. -/
structure PubkeyInternal where
  pk : Pubkey
deriving Repr, DecidableEq

/-- Rust `SwapInstructionsResponse` from `swap.rs` (domain type). -/
structure SwapInstructionsResponse where
  swap_instruction : Instruction
  address_lookup_table_addresses : List Pubkey
deriving Repr, DecidableEq

/-- Rust `SwapInstructionsResponseInternal` from `swap.rs`: the wire-shaped
mirror of `SwapInstructionsResponse`. -/
structure SwapInstructionsResponseInternal where
  swap_instruction : InstructionInternal
  address_lookup_table_addresses : List PubkeyInternal
deriving Repr, DecidableEq

/-- Rust `impl From<AccountMetaInternal> for AccountMeta` from `swap.rs`:
field-by-field copy. -/
def AccountMetaInternal.toAccountMeta (val : AccountMetaInternal) : AccountMeta :=
  { pubkey := val.pubkey
    is_signer := val.is_signer
    is_writable := val.is_writable }

/-- Rust `impl From<InstructionInternal> for Instruction` from `swap.rs`:
copies `program_id` and `data`, maps the account list element-wise. -/
def InstructionInternal.toInstruction (val : InstructionInternal) : Instruction :=
  { program_id := val.program_id
    accounts := val.accounts.map AccountMetaInternal.toAccountMeta
    data := val.data }

/-- Rust `impl From<SwapInstructionsResponseInternal> for
SwapInstructionsResponse` from `swap.rs`: converts the instruction and
unwraps each `PubkeyInternal` element-wise. -/
def SwapInstructionsResponseInternal.toResponse
    (value : SwapInstructionsResponseInternal) : SwapInstructionsResponse :=
  { swap_instruction := value.swap_instruction.toInstruction
    address_lookup_table_addresses :=
      value.address_lookup_table_addresses.map (·.pk) }

/-- Rust `JupiterSwapApiClient::swap_instructions` from `lib.rs`:
`check_status_code_and_deserialize::<SwapInstructionsResponseInternal>`
followed by `.map(Into::into)` (the timing instrumentation around it does
not affect the result). -/
def swap_instructions (parse : String → Option SwapInstructionsResponseInternal)
    (r : HttpResponse) : Except ClientError SwapInstructionsResponse :=
  (check_status_code_and_deserialize parse r).map
    SwapInstructionsResponseInternal.toResponse

/-- Query-string assembly in `JupiterSwapApiClient::quote` from `lib.rs`:
`.query(&internal_quote_request).query(&extra_args)`. `reqwest`'s
`RequestBuilder::query` appends pairs to the query string and never
overwrites existing ones, so the resulting pair list is the typed request's
pairs followed by the passthrough pairs. -/
def quote_query (fixed extra : List (String × String)) : List (String × String) :=
  fixed ++ extra

/-! ## Textual-value codecs (`serde_helpers/`)

The Rust functions are generic over `T: FromStr`; the external parser
(`T::from_str`) is a parameter `parse`, returning the parse diagnostic
(`{:?}` of the `FromStr::Err`) on failure. -/

/-- Rust `field_as_string::deserialize`: deserialize a JSON string, then
`s.parse()`, mapping a parse failure to the custom serde error
`format!("Parse error: {:?}", e)` — note the message embeds only the
diagnostic `e`, not the offending text. -/
def field_as_string.deserialize {T : Type} (parse : String → Except String T)
    (j : Json) : Except String T :=
  match j with
  | .str s =>
    match parse s with
    | .ok t => .ok t
    | .error e => .error ("Parse error: " ++ e)
  | _ => .error "invalid type: expected string"

/-- Rust `option_field_as_string::deserialize`: `Option::<String>::deserialize`
(null → `None`, string → `Some`), then parse any present string, mapping a
parse failure to `format!("Parse error: {:?}", e)`. -/
def option_field_as_string.deserialize {T : Type}
    (parse : String → Except String T) (j : Json) : Except String (Option T) :=
  match j with
  | .null => .ok none
  | .str s =>
    match parse s with
    | .ok t => .ok (some t)
    | .error e => .error ("Parse error: " ++ e)
  | _ => .error "invalid type: expected a string or null"

/-! ## Derived struct deserializers (`swap.rs`)

The serde-derived `Deserialize` impls of the wire-shaped structs, with
`rename_all = "camelCase"` keys. Unknown keys are ignored (no
`deny_unknown_fields` attribute in the source); a missing required field
is an error, never a default. -/

/-- Field lookup in a deserialized JSON object (first occurrence). -/
def getField (fields : List (String × Json)) (k : String) : Option Json :=
  fields.lookup k

/-- Deserializing a `bool` field: only a JSON boolean is accepted. -/
def parseJsonBool (j : Json) : Except String Bool :=
  match j with
  | .jbool b => .ok b
  | _ => .error "invalid type: expected a boolean"

/-- Derived `Deserialize` for `AccountMetaInternal` (`swap.rs`): requires
fields `pubkey` (via `field_as_string`), `isSigner` and `isWritable`
(plain booleans); a missing field is an error. `parsePk` is the external
`Pubkey::from_str`. -/
def AccountMetaInternal.deserialize (parsePk : String → Except String Pubkey)
    (j : Json) : Except String AccountMetaInternal :=
  match j with
  | .obj fields =>
    match getField fields "pubkey" with
    | none => .error "missing field pubkey"
    | some pj =>
      match field_as_string.deserialize parsePk pj with
      | .error e => .error e
      | .ok pk =>
        match getField fields "isSigner" with
        | none => .error "missing field isSigner"
        | some sj =>
          match parseJsonBool sj with
          | .error e => .error e
          | .ok sgn =>
            match getField fields "isWritable" with
            | none => .error "missing field isWritable"
            | some wj =>
              match parseJsonBool wj with
              | .error e => .error e
              | .ok w => .ok ⟨pk, sgn, w⟩
  | _ => .error "invalid type: expected an object"

/-- Derived `Deserialize` for `InstructionInternal` (`swap.rs`): requires
`programId` (via `field_as_string`), `accounts` (an array of
`AccountMetaInternal`), and `data` (via `base64_serialize_deserialize`). -/
def InstructionInternal.deserialize (parsePk : String → Except String Pubkey)
    (j : Json) : Except String InstructionInternal :=
  match j with
  | .obj fields =>
    match getField fields "programId" with
    | none => .error "missing field programId"
    | some pj =>
      match field_as_string.deserialize parsePk pj with
      | .error e => .error e
      | .ok pid =>
        match getField fields "accounts" with
        | none => .error "missing field accounts"
        | some aj =>
          match aj with
          | .arr l =>
            match l.mapM (AccountMetaInternal.deserialize parsePk) with
            | .error e => .error e
            | .ok accs =>
              match getField fields "data" with
              | none => .error "missing field data"
              | some dj =>
                match base64_serialize_deserialize.deserialize dj with
                | .error e => .error e
                | .ok bytes => .ok ⟨pid, accs, bytes⟩
          | _ => .error "invalid type: expected an array"
  | _ => .error "invalid type: expected an object"

/-- Derived `Deserialize` for the newtype `PubkeyInternal` (`swap.rs`):
its single field goes through `field_as_string`. -/
def PubkeyInternal.deserialize (parsePk : String → Except String Pubkey)
    (j : Json) : Except String PubkeyInternal :=
  match field_as_string.deserialize parsePk j with
  | .ok pk => .ok ⟨pk⟩
  | .error e => .error e

/-- Derived `Deserialize` for `SwapInstructionsResponseInternal`
(`swap.rs`): requires `swapInstruction` and `addressLookupTableAddresses`
(an array of `PubkeyInternal`). -/
def SwapInstructionsResponseInternal.deserialize
    (parsePk : String → Except String Pubkey) (j : Json) :
    Except String SwapInstructionsResponseInternal :=
  match j with
  | .obj fields =>
    match getField fields "swapInstruction" with
    | none => .error "missing field swapInstruction"
    | some ij =>
      match InstructionInternal.deserialize parsePk ij with
      | .error e => .error e
      | .ok ins =>
        match getField fields "addressLookupTableAddresses" with
        | none => .error "missing field addressLookupTableAddresses"
        | some aj =>
          match aj with
          | .arr l =>
            match l.mapM (PubkeyInternal.deserialize parsePk) with
            | .error e => .error e
            | .ok pks => .ok ⟨ins, pks⟩
          | _ => .error "invalid type: expected an array"
  | _ => .error "invalid type: expected an object"

/-! ## Helper lemmas -/

theorem charToSextet_sextetToChar :
    ∀ s, s < 64 → charToSextet (sextetToChar s) = some s := by
  decide

theorem sextetToChar_ne_pad : ∀ s, s < 64 → sextetToChar s ≠ '=' := by
  decide

/-- Decoding inverts encoding on every byte list. -/
theorem decodeB64_encodeB64 : ∀ (v : List Nat), (∀ b ∈ v, b < 256) →
    decodeB64 (encodeB64 v) = some v
  | [], _ => rfl
  | [b1], h => by
    have hb1 : b1 < 256 := h b1 (by simp)
    have e1 := charToSextet_sextetToChar (b1 / 4) (by omega)
    have e2 := charToSextet_sextetToChar (b1 % 4 * 16) (by omega)
    have m1 : b1 % 4 * 16 % 16 = 0 := by omega
    simp only [encodeB64, decodeB64, e1, e2, m1, and_true, and_self, if_true,
      List.cons.injEq, and_true, reduceIte, Option.some.injEq]
    omega
  | [b1, b2], h => by
    have hb1 : b1 < 256 := h b1 (by simp)
    have hb2 : b2 < 256 := h b2 (by simp)
    have e1 := charToSextet_sextetToChar (b1 / 4) (by omega)
    have e2 := charToSextet_sextetToChar (b1 % 4 * 16 + b2 / 16) (by omega)
    have e3 := charToSextet_sextetToChar (b2 % 16 * 4) (by omega)
    have n3 := sextetToChar_ne_pad (b2 % 16 * 4) (by omega)
    have m3 : b2 % 16 * 4 % 4 = 0 := by omega
    simp only [encodeB64, decodeB64, e1, e2, e3, n3, m3, if_false, and_true,
      and_self, if_true, reduceIte, List.cons.injEq, Option.some.injEq]
    omega
  | b1 :: b2 :: b3 :: rest, h => by
    have hb1 : b1 < 256 := h b1 (by simp)
    have hb2 : b2 < 256 := h b2 (by simp)
    have hb3 : b3 < 256 := h b3 (by simp)
    have ih := decodeB64_encodeB64 rest (fun b hb => h b (by simp [hb]))
    have e1 := charToSextet_sextetToChar (b1 / 4) (by omega)
    have e2 := charToSextet_sextetToChar (b1 % 4 * 16 + b2 / 16) (by omega)
    have e3 := charToSextet_sextetToChar (b2 % 16 * 4 + b3 / 64) (by omega)
    have e4 := charToSextet_sextetToChar (b3 % 64) (by omega)
    have n3 := sextetToChar_ne_pad (b2 % 16 * 4 + b3 / 64) (by omega)
    have n4 := sextetToChar_ne_pad (b3 % 64) (by omega)
    simp only [encodeB64, decodeB64, e1, e2, e3, e4, n3, n4, if_false,
      reduceIte, ih, Option.map_some', List.cons.injEq, Option.some.injEq,
      and_true]
    omega

/-- Looking up a key that is not among an association list's keys yields
`none`. -/
theorem lookup_eq_none_of_not_mem_keys {β : Type} (k : String)
    (l : List (String × β)) (h : k ∉ l.map Prod.fst) : l.lookup k = none := by
  induction l with
  | nil => rfl
  | cons p t ih =>
    simp only [List.map_cons, List.mem_cons, not_or] at h
    have hne : (k == p.1) = false := beq_eq_false_iff_ne.mpr h.1
    cases p with
    | mk a b =>
      simp only [List.lookup]
      rw [hne]
      exact ih h.2

/-- Appending pairs whose keys do not contain `k` does not change the
lookup of `k`. -/
theorem lookup_append_of_not_mem_keys {β : Type} (k : String)
    (l1 l2 : List (String × β)) (h : k ∉ l2.map Prod.fst) :
    (l1 ++ l2).lookup k = l1.lookup k := by
  induction l1 with
  | nil => simpa using lookup_eq_none_of_not_mem_keys k l2 h
  | cons p t ih =>
    cases p with
    | mk a b =>
      simp only [List.cons_append, List.lookup]
      cases hk : k == a with
      | true => rfl
      | false => exact ih

/-- Membership of a pair in the first list fixes the lookup of its key in
the concatenation to the first list's lookup. -/
theorem lookup_append_left_of_mem {β : Type} (k : String) (v : β)
    (l1 l2 : List (String × β)) (h : (k, v) ∈ l1) :
    (l1 ++ l2).lookup k = l1.lookup k := by
  induction l1 with
  | nil => cases h
  | cons p t ih =>
    cases p with
    | mk a b =>
      simp only [List.cons_append, List.lookup]
      cases hk : k == a with
      | true => rfl
      | false =>
        apply ih
        rcases List.mem_cons.mp h with heq | ht
        · exfalso
          have : k = a := congrArg Prod.fst heq
          simp [this] at hk
        · exact ht

/-- The keys a derived deserializer of this file ever looks up. -/
def knownKeys : List String :=
  ["pubkey", "isSigner", "isWritable", "programId", "accounts", "data",
   "swapInstruction", "addressLookupTableAddresses"]

instance {ε α : Type} [DecidableEq ε] [DecidableEq α] :
    DecidableEq (Except ε α)
  | .ok a, .ok b =>
    if h : a = b then isTrue (by rw [h])
    else isFalse (fun hh => h (by injection hh))
  | .ok _, .error _ => isFalse (fun hh => nomatch hh)
  | .error _, .ok _ => isFalse (fun hh => nomatch hh)
  | .error e, .error f =>
    if h : e = f then isTrue (by rw [h])
    else isFalse (fun hh => h (by injection hh))

/-! ## Concrete parsers used by witnesses -/

/-- A concrete `FromStr`-style parser of decimal naturals. -/
def natFromStr (s : String) : Except String Nat :=
  if s.data ≠ [] ∧ ∀ c ∈ s.data, '0' ≤ c ∧ c ≤ '9' then
    .ok (s.data.foldl (fun acc c => acc * 10 + (c.toNat - '0'.toNat)) 0)
  else .error "invalid digit"

/-- A concrete parser that rejects every input with a fixed diagnostic. -/
def constFailNat : String → Except String Nat :=
  fun _ => .error "bad"

/-- A concrete `Pubkey::from_str` stand-in that accepts every input. -/
def pkOk : String → Except String Pubkey :=
  fun s => .ok ⟨[s.length]⟩

/-- A concrete health-body parser that accepts every input. -/
def healthParseAny : String → Option HealthResponse :=
  fun _ => some ⟨Json.null⟩

/-- A concrete optional decimal parser for the transport layer. -/
def natParseOpt (s : String) : Option Nat :=
  s.toNat?

/-- A concrete wire parser that rejects every body. -/
def swapParseNone : String → Option SwapInstructionsResponseInternal :=
  fun _ => none

/-! ## Claims -/

/-- C1: For every HTTP response whose status is not a success status,
`check_is_success` returns a `RequestFailed` error carrying that status
code and the response body text, and if reading the body itself fails the
error carries the empty string as body rather than masking the status
failure. -/
theorem claim_C1_request_failed (r : HttpResponse)
    (h : statusIsSuccess r.status = false) :
    check_is_success r = .error (.requestFailed r.status (r.body.getD "")) ∧
    (r.body = none →
      check_is_success r = .error (.requestFailed r.status "")) := by
  refine ⟨?_, fun hb => ?_⟩
  · simp [check_is_success, h]
  · simp [check_is_success, h, hb]

theorem claim_C1_witness :
    check_is_success ⟨500, some "internal error"⟩ =
      .error (.requestFailed 500 "internal error") ∧
    check_is_success ⟨502, none⟩ = .error (.requestFailed 502 "") :=
  ⟨(claim_C1_request_failed ⟨500, some "internal error"⟩ rfl).1,
   (claim_C1_request_failed ⟨502, none⟩ rfl).2 rfl⟩

/-- C2: Converting a deserialized internal instruction into the domain
`Instruction` yields an account list of the same length whose elements
appear in exactly the same order as in the wire array, and the
address-lookup-table address list likewise preserves its wire order; no
re-sorting occurs (position `i` of the output always comes from position
`i` of the input). -/
theorem claim_C2_order_preserved (v : InstructionInternal)
    (r : SwapInstructionsResponseInternal) (i : Nat) :
    v.toInstruction.accounts.length = v.accounts.length ∧
    v.toInstruction.accounts[i]? =
      (v.accounts[i]?).map AccountMetaInternal.toAccountMeta ∧
    r.toResponse.address_lookup_table_addresses.length =
      r.address_lookup_table_addresses.length ∧
    r.toResponse.address_lookup_table_addresses[i]? =
      (r.address_lookup_table_addresses[i]?).map (·.pk) := by
  refine ⟨?_, ?_, ?_, ?_⟩ <;>
    simp [InstructionInternal.toInstruction,
      SwapInstructionsResponseInternal.toResponse]

/-- C3: For every byte sequence `v`, decoding the base-64 codec's encoding
of `v` yields exactly `v`; in particular `"AQID"` decodes to `[1,2,3]` and
encoding `[1,2,3]` yields `"AQID"` (see the witness). -/
theorem claim_C3_roundtrip (v : List Nat) (h : ∀ b ∈ v, b < 256) :
    base64_serialize_deserialize.deserialize
      (Json.str (base64_serialize_deserialize.serialize v)) = .ok v := by
  have hd := decodeB64_encodeB64 v h
  simp only [base64_serialize_deserialize.deserialize,
    base64_serialize_deserialize.serialize]
  rw [hd]

theorem claim_C3_witness :
    base64_serialize_deserialize.serialize [1, 2, 3] = "AQID" ∧
    base64_serialize_deserialize.deserialize (Json.str "AQID") = .ok [1, 2, 3] ∧
    base64_serialize_deserialize.deserialize
      (Json.str (base64_serialize_deserialize.serialize [1, 2, 3])) =
      .ok [1, 2, 3] :=
  ⟨by decide, by rfl, claim_C3_roundtrip [1, 2, 3] (by decide)⟩

/-- C4, counterexample: a 500 response with a parseable body makes
`health` return `Ok` — it deserializes instead of returning
`RequestFailed`, so `health` does not follow the common call protocol. -/
theorem claim_C4_counterexample :
    statusIsSuccess 500 = false ∧
    health healthParseAny ⟨500, some "down"⟩ = .ok ⟨Json.null⟩ ∧
    health healthParseAny ⟨500, some "down"⟩ ≠
      .error (.requestFailed 500 "down") :=
  ⟨rfl, rfl, fun h => nomatch h⟩

/-- C4 (amended): `quote`, `swap` and `swap_instructions` all route
through `check_status_code_and_deserialize`, which returns `RequestFailed`
with the status and best-effort body on every non-success status; `health`
alone skips the status check, deserializing the body directly, and so
never returns a `RequestFailed` error. -/
theorem claim_C4_amended {T : Type} (parse : String → Option T)
    (parseH : String → Option HealthResponse)
    (parseS : String → Option SwapInstructionsResponseInternal)
    (r : HttpResponse) (h : statusIsSuccess r.status = false) :
    check_status_code_and_deserialize parse r =
      .error (.requestFailed r.status (r.body.getD "")) ∧
    swap_instructions parseS r =
      .error (.requestFailed r.status (r.body.getD "")) ∧
    ∀ s b, health parseH r ≠ .error (.requestFailed s b) := by
  refine ⟨?_, ?_, ?_⟩
  · simp [check_status_code_and_deserialize, check_is_success, h]
  · simp [swap_instructions, check_status_code_and_deserialize,
      check_is_success, h, Except.map]
  · intro s b
    unfold health
    cases hb : r.body with
    | none => simp
    | some x => cases hp : parseH x <;> simp [hp]

theorem claim_C4_witness :
    check_status_code_and_deserialize natParseOpt ⟨500, some "internal error"⟩ =
      .error (.requestFailed 500 "internal error") ∧
    swap_instructions swapParseNone ⟨500, some "internal error"⟩ =
      .error (.requestFailed 500 "internal error") ∧
    ∀ s b, health healthParseAny ⟨500, some "internal error"⟩ ≠
      .error (.requestFailed s b) :=
  claim_C4_amended natParseOpt healthParseAny swapParseNone
    ⟨500, some "internal error"⟩ rfl

/-- C5: For every successfully deserialized wire-shaped value, the
conversion into the corresponding domain type is a total function (its
Lean type is a plain function, with no error channel) that copies the
pubkey bytes and the boolean flags field by field and maps the nested
lists element-wise. -/
theorem claim_C5_total_conversion (a : AccountMetaInternal)
    (ins : InstructionInternal) (resp : SwapInstructionsResponseInternal) :
    (a.toAccountMeta.pubkey = a.pubkey ∧
     a.toAccountMeta.is_signer = a.is_signer ∧
     a.toAccountMeta.is_writable = a.is_writable) ∧
    (ins.toInstruction.program_id = ins.program_id ∧
     ins.toInstruction.data = ins.data ∧
     ins.toInstruction.accounts =
       ins.accounts.map AccountMetaInternal.toAccountMeta) ∧
    (resp.toResponse.swap_instruction = resp.swap_instruction.toInstruction ∧
     resp.toResponse.address_lookup_table_addresses =
       resp.address_lookup_table_addresses.map (·.pk)) :=
  ⟨⟨rfl, rfl, rfl⟩, ⟨rfl, rfl, rfl⟩, ⟨rfl, rfl⟩⟩

/-- C6: When the quote request is serialized, the typed request's pairs
are appended first and the passthrough pairs after them, so a passthrough
key that collides with a fixed field's key never silently overwrites the
fixed field's value: the fixed pair stays in the query string and the
first occurrence of its key still resolves to the typed value. -/
theorem claim_C6_no_overwrite (fixed extra : List (String × String))
    (k v : String) (h : (k, v) ∈ fixed) :
    (k, v) ∈ quote_query fixed extra ∧
    (quote_query fixed extra).lookup k = fixed.lookup k := by
  refine ⟨List.mem_append_left _ h, ?_⟩
  exact lookup_append_left_of_mem k v fixed extra h

theorem claim_C6_witness :
    ("amount", "5") ∈
      quote_query [("amount", "5"), ("slippageBps", "50")] [("amount", "999")] ∧
    (quote_query [("amount", "5"), ("slippageBps", "50")]
        [("amount", "999")]).lookup "amount" =
      [("amount", "5"), ("slippageBps", "50")].lookup "amount" :=
  claim_C6_no_overwrite [("amount", "5"), ("slippageBps", "50")]
    [("amount", "999")] "amount" "5" (by simp)

/-- C7, counterexample: the decode error of `field_as_string` is built
from the parse diagnostic alone (`format!("Parse error: {:?}", e)`), so
two different offending texts that fail with the same diagnostic produce
the identical error value — the error cannot carry the offending text. -/
theorem claim_C7_counterexample :
    field_as_string.deserialize constFailNat (Json.str "aaa") =
      .error "Parse error: bad" ∧
    field_as_string.deserialize constFailNat (Json.str "bbb") =
      .error "Parse error: bad" ∧
    "aaa" ≠ "bbb" :=
  ⟨rfl, rfl, by decide⟩

/-- C7 (amended): for every input string `s` that the target type's parser
rejects, `field_as_string.deserialize` fails all-or-nothing with an error
carrying the underlying parse diagnostic (but not the offending text); a
string the parser accepts decodes to exactly the parsed value. -/
theorem claim_C7_amended {T : Type} (parse : String → Except String T)
    (s e : String) (t : T) :
    (parse s = .error e →
      field_as_string.deserialize parse (Json.str s) =
        .error ("Parse error: " ++ e)) ∧
    (parse s = .ok t →
      field_as_string.deserialize parse (Json.str s) = .ok t) := by
  refine ⟨fun h => ?_, fun h => ?_⟩ <;>
    simp [field_as_string.deserialize, h]

theorem claim_C7_witness :
    field_as_string.deserialize natFromStr (Json.str "zz") =
      .error "Parse error: invalid digit" ∧
    field_as_string.deserialize natFromStr (Json.str "17") = .ok 17 :=
  ⟨(claim_C7_amended natFromStr "zz" "invalid digit" 0).1 (by decide),
   (claim_C7_amended natFromStr "17" "" 17).2 (by decide)⟩

/-- C8: `option_field_as_string.deserialize` maps a JSON null (the wire
form of an absent optional) to `Ok none`; a present string the parser
rejects fails with the parse error; and an `Ok none` result can only have
come from null — absence is never treated as invalidity and invalidity is
never mapped to `none`. -/
theorem claim_C8_option_codec {T : Type} (parse : String → Except String T)
    (s e : String) (j : Json) :
    option_field_as_string.deserialize parse Json.null = .ok none ∧
    (parse s = .error e →
      option_field_as_string.deserialize parse (Json.str s) =
        .error ("Parse error: " ++ e)) ∧
    (option_field_as_string.deserialize parse j = .ok none →
      j = Json.null) := by
  refine ⟨rfl, fun h => ?_, fun h => ?_⟩
  · simp [option_field_as_string.deserialize, h]
  · cases j with
    | null => rfl
    | str s1 =>
      exfalso
      simp only [option_field_as_string.deserialize] at h
      cases hp : parse s1 <;> rw [hp] at h <;> simp at h
    | jbool b => simp [option_field_as_string.deserialize] at h
    | num n => simp [option_field_as_string.deserialize] at h
    | arr l => simp [option_field_as_string.deserialize] at h
    | obj o => simp [option_field_as_string.deserialize] at h

theorem claim_C8_witness :
    option_field_as_string.deserialize natFromStr Json.null =
      .ok (none : Option Nat) ∧
    option_field_as_string.deserialize natFromStr (Json.str "zz") =
      .error "Parse error: invalid digit" :=
  ⟨(claim_C8_option_codec natFromStr "zz" "invalid digit" Json.null).1,
   (claim_C8_option_codec natFromStr "zz" "invalid digit" Json.null).2.1
     (by decide)⟩

/-- C9: Deserializing an account reference requires both boolean flags: if
`isSigner` or `isWritable` is absent from the wire object, the derived
deserializer of `AccountMetaInternal` fails with an error instead of
substituting a default value. -/
theorem claim_C9_flags_required (parsePk : String → Except String Pubkey)
    (fields : List (String × Json))
    (h : getField fields "isSigner" = none ∨
      getField fields "isWritable" = none) :
    ∃ e, AccountMetaInternal.deserialize parsePk (Json.obj fields) =
      .error e := by
  simp only [AccountMetaInternal.deserialize]
  repeat' split
  all_goals
    first
      | exact ⟨_, rfl⟩
      | (rcases h with h | h <;> simp_all)

theorem claim_C9_witness :
    ∃ e, AccountMetaInternal.deserialize pkOk
      (Json.obj [("pubkey", Json.str "k"), ("isWritable", Json.jbool true)]) =
      .error e :=
  claim_C9_flags_required pkOk
    [("pubkey", Json.str "k"), ("isWritable", Json.jbool true)]
    (Or.inl rfl)

/-- C10: The derived deserializers of the wire-shaped response types have
no `deny_unknown_fields` attribute, so extra JSON keys that are not among
the recognized field names are silently ignored: appending them to a wire
object changes no deserialization result (in particular, an object that
deserialized successfully still yields the same value). -/
theorem claim_C10_unknown_keys_ignored
    (parsePk : String → Except String Pubkey)
    (fields extra : List (String × Json))
    (h : ∀ k ∈ extra.map Prod.fst, k ∉ knownKeys) :
    AccountMetaInternal.deserialize parsePk (Json.obj (fields ++ extra)) =
      AccountMetaInternal.deserialize parsePk (Json.obj fields) ∧
    InstructionInternal.deserialize parsePk (Json.obj (fields ++ extra)) =
      InstructionInternal.deserialize parsePk (Json.obj fields) ∧
    SwapInstructionsResponseInternal.deserialize parsePk
        (Json.obj (fields ++ extra)) =
      SwapInstructionsResponseInternal.deserialize parsePk
        (Json.obj fields) := by
  have hk : ∀ k, k ∈ knownKeys → k ∉ extra.map Prod.fst :=
    fun k hkk hm => h k hm hkk
  have g : ∀ k, k ∈ knownKeys →
      getField (fields ++ extra) k = getField fields k := fun k hkk =>
    lookup_append_of_not_mem_keys k fields extra (hk k hkk)
  refine ⟨?_, ?_, ?_⟩
  · simp only [AccountMetaInternal.deserialize,
      g "pubkey" (by decide), g "isSigner" (by decide),
      g "isWritable" (by decide)]
  · simp only [InstructionInternal.deserialize,
      g "programId" (by decide), g "accounts" (by decide),
      g "data" (by decide)]
  · simp only [SwapInstructionsResponseInternal.deserialize,
      g "swapInstruction" (by decide),
      g "addressLookupTableAddresses" (by decide),
      InstructionInternal.deserialize, g "programId" (by decide),
      g "accounts" (by decide), g "data" (by decide)]

theorem claim_C10_witness :
    AccountMetaInternal.deserialize pkOk
        (Json.obj ([("pubkey", Json.str "k"), ("isSigner", Json.jbool true),
          ("isWritable", Json.jbool false)] ++ [("label", Json.str "x")])) =
      AccountMetaInternal.deserialize pkOk
        (Json.obj [("pubkey", Json.str "k"), ("isSigner", Json.jbool true),
          ("isWritable", Json.jbool false)]) :=
  (claim_C10_unknown_keys_ignored pkOk
    [("pubkey", Json.str "k"), ("isSigner", Json.jbool true),
      ("isWritable", Json.jbool false)]
    [("label", Json.str "x")] (by decide)).1

end JupiterSwap
